import Mathlib

/-!
Verification of the OpenCV.js build-orchestration script
(`text-detection/scripts/assets/opencv/build_js.py`).

The script is shallowly embedded: the filesystem is a finite association
list from normalized absolute paths (lists of name components) to entries
(file or directory); path strings are parsed into raw paths and resolved
with a model of `os.path.abspath` (posix `normpath` over a current working
directory); subprocess invocation is modelled by an oracle that maps a
command and a filesystem to an exit status and a resulting filesystem,
translated to success or error by `execute` exactly as the script does.
-/

/-- Filesystem entry kind: a regular file or a directory. -/
inductive Entry
  | file
  | dir
deriving DecidableEq, Repr

/-- A filesystem: association list from normalized absolute paths
(component lists) to entries.  Lookup takes the first binding. -/
abbrev Fs := List (List String × Entry)

/-- First-binding lookup in the filesystem association list. -/
def fsLookup : Fs → List String → Option Entry
  | [], _ => none
  | (k, v) :: rest, q => if k = q then some v else fsLookup rest q

/-- Models `os.path.exists` on a resolved absolute path. -/
def fsExists (fs : Fs) (p : List String) : Bool :=
  (fsLookup fs p).isSome

/-- Models `os.path.isdir` on a resolved absolute path. -/
def isdir (fs : Fs) (p : List String) : Bool :=
  match fsLookup fs p with
  | some Entry.dir => true
  | _ => false

/-- Models `os.path.isfile` on a resolved absolute path. -/
def isfile (fs : Fs) (p : List String) : Bool :=
  match fsLookup fs p with
  | some Entry.file => true
  | _ => false

/-- A raw (unresolved) path as handed to the script: whether it is
absolute, and its slash-separated components (which may contain empty
components from duplicate or trailing slashes, "." and ".."). -/
structure RawPath where
  absolute : Bool
  comps : List String
deriving DecidableEq, Repr

/-- One step of posix `normpath` component normalization for an absolute
path, processing one component against a reversed accumulator: empty and
"." components are dropped, ".." pops the previous component (at the root
it is dropped), and ordinary names are pushed. -/
def normAcc (acc : List String) (c : String) : List String :=
  if c = "" ∨ c = "." then acc
  else if c = ".." then acc.tail
  else c :: acc

/-- Models posix `normpath` on the component list of an absolute path. -/
def normPath (cs : List String) : List String :=
  (cs.foldl normAcc []).reverse

/-- Models `os.path.abspath`: an absolute path is normalized as is, a
relative path is joined to the current working directory first. -/
def abspath (cwd : List String) (p : RawPath) : List String :=
  if p.absolute then normPath p.comps else normPath (cwd ++ p.comps)

/-- Splits a character list at slashes into path components. -/
def splitSlash (cs : List Char) : List String :=
  cs.foldr
    (fun c acc =>
      if c = '/' then "" :: acc
      else
        match acc with
        | [] => [String.mk [c]]
        | s :: rest => String.mk (c :: s.data) :: rest)
    [""]

/-- Parses a path string into a `RawPath`: it is absolute when it starts
with a slash, and its components are the slash-separated substrings. -/
def parsePath (s : String) : RawPath :=
  { absolute := match s.data with | '/' :: _ => true | _ => false
    comps := splitSlash s.data }

/-- Renders a normalized absolute path back to a string. -/
def renderPath (p : List String) : String :=
  "/" ++ String.intercalate "/" p

/-- Errors the script can raise: its own `Fail` exception (carrying an
optional message), an `OSError` (errno and message) from `os` calls, and
a `TypeError` (from calling `os.path.abspath` on `None`). -/
inductive PyErr
  | fail (t : Option String)
  | oserror (errno : Int) (strerror : String)
  | typeError (msg : String)
deriving DecidableEq, Repr

/-- Adds a binding to the filesystem when the path is not yet bound;
an existing binding is left untouched. -/
def fsAdd (fs : Fs) (p : List String) (e : Entry) : Fs :=
  if (fsLookup fs p).isSome then fs else (p, e) :: fs

/-- All prefixes (ancestor paths) of a path, shortest first, the path
itself included. -/
def mkdirPaths (d : List String) : List (List String) :=
  (List.range (d.length + 1)).map (fun i => d.take i)

/-- Models `os.makedirs`: creates the directory and all missing ancestor
directories; raises an `OSError` when some ancestor (or the path itself)
already exists as a regular file. -/
def makedirs (fs : Fs) (d : List String) : Except PyErr Fs :=
  if (mkdirPaths d).any (fun q => isfile fs q) then
    Except.error (PyErr.oserror 20 "Not a directory")
  else
    Except.ok ((mkdirPaths d).foldl (fun a p => fsAdd a p Entry.dir) fs)

/-- Models `rm_one` from the script: resolve the path; when it exists,
remove it recursively when it is a directory (`shutil.rmtree`) or remove
the single file (`os.remove`); an absent path is left alone silently. -/
def rm_one (fs : Fs) (cwd : List String) (p : RawPath) : Fs :=
  let d := abspath cwd p
  if fsExists fs d then
    if isdir fs d then
      fs.filter (fun e => !(d.isPrefixOf e.1))
    else if isfile fs d then
      fs.filter (fun e => !(e.1 = d : Bool))
    else fs
  else fs

/-- Models `glob.glob(os.path.join(d, "*"))`: the direct children of `d`
present in the filesystem whose names do not start with a dot. -/
def globStar (fs : Fs) (d : List String) : List (List String) :=
  (fs.map Prod.fst).filter
    (fun p =>
      p.length = d.length + 1 && d.isPrefixOf p &&
        !((p.getLastD "").data.headD ' ' = '.' : Bool))

/-- Models `check_dir` from the script: resolve the path; when it exists
it must be a directory (else `Fail("Not a directory: ...")`), optionally
cleaning its direct children; when it is absent it is created only when
`create` is set; in all remaining cases the resolved path is returned
without error. -/
def check_dir (fs : Fs) (cwd : List String) (p : RawPath)
    (create : Bool) (clean : Bool) : Except PyErr (Fs × List String) :=
  let d := abspath cwd p
  if fsExists fs d then
    if !(isdir fs d) then
      Except.error (PyErr.fail (some ("Not a directory: " ++ renderPath d)))
    else if clean then
      Except.ok ((globStar fs d).foldl
        (fun a x => rm_one a cwd { absolute := true, comps := x }) fs, d)
    else
      Except.ok (fs, d)
  else
    if create then
      match makedirs fs d with
      | Except.error e => Except.error e
      | Except.ok fs' => Except.ok (fs', d)
    else
      Except.ok (fs, d)

section BasicLemmas

theorem isdir_exists {fs : Fs} {d : List String} (h : isdir fs d = true) :
    fsExists fs d = true := by
  unfold isdir at h
  unfold fsExists
  cases hl : fsLookup fs d with
  | none => rw [hl] at h; simp at h
  | some e => simp [hl]

theorem isfile_false_iff {fs : Fs} {d : List String} :
    isfile fs d = false ↔ fsLookup fs d ≠ some Entry.file := by
  unfold isfile
  cases hl : fsLookup fs d with
  | none => simp
  | some e => cases e <;> simp

theorem fsLookup_fsAdd (fs : Fs) (p : List String) (e : Entry)
    (q : List String) :
    fsLookup (fsAdd fs p e) q =
      if fsLookup fs p = none ∧ q = p then some e else fsLookup fs q := by
  unfold fsAdd
  cases hl : fsLookup fs p with
  | some v =>
    simp [hl]
  | none =>
    simp only [hl, Option.isSome_none, Bool.false_eq_true, if_false]
    by_cases hq : q = p
    · subst hq; simp [fsLookup, hl]
    · have hpq : ¬ p = q := fun h => hq h.symm
      simp [fsLookup, hq, hpq]

theorem fsLookup_foldl_fsAdd (l : List (List String)) (fs : Fs)
    (q : List String)
    (hnf : ∀ p ∈ l, fsLookup fs p ≠ some Entry.file)
    (hq : fsLookup fs q = some Entry.dir ∨ q ∈ l) :
    fsLookup (l.foldl (fun a p => fsAdd a p Entry.dir) fs) q
      = some Entry.dir := by
  induction l generalizing fs with
  | nil =>
    rcases hq with h | h
    · simpa using h
    · simp at h
  | cons p rest ih =>
    simp only [List.foldl_cons]
    apply ih
    · intro r hr
      rw [fsLookup_fsAdd]
      by_cases hc : fsLookup fs p = none ∧ r = p
      · simp [hc]
      · simp only [hc, if_false]
        exact hnf r (List.mem_cons_of_mem _ hr)
    · rcases hq with h | h
      · left
        rw [fsLookup_fsAdd]
        by_cases hc : fsLookup fs p = none ∧ q = p
        · rcases hc with ⟨hc1, hc2⟩; subst hc2; rw [h] at hc1; cases hc1
        · simp [hc, h]
      · rcases List.mem_cons.mp h with h | h
        · subst h
          left
          rw [fsLookup_fsAdd]
          by_cases hc : fsLookup fs q = none ∧ q = q
          · simp [hc]
          · simp only [hc, if_false]
            cases hl : fsLookup fs q with
            | none => exact absurd ⟨hl, rfl⟩ hc
            | some e =>
              cases e with
              | file =>
                exact absurd hl (hnf q (List.mem_cons_self q rest))
              | dir => rfl
        · right; exact h

end BasicLemmas

/-- C1 counterexample input: an empty filesystem. -/
def fsEmpty : Fs := []

/-- C1, as stated, is false: on a non-existent path with `create=false`,
`check_dir` does not fail with `Fail` — it silently returns the resolved
path (the script only raises `Fail` when the path exists and is not a
directory). -/
theorem c1_counterexample :
    check_dir fsEmpty [] (parsePath "missing") false false
      = Except.ok (fsEmpty, ["missing"]) := by
  rfl

/-- C1 (amended): on a non-existent path, `check_dir` with `create=false`
succeeds, returning the resolved path and leaving the filesystem
untouched (no `Fail` is raised); with `create=true` the directory is
created and validation succeeds returning the resolved path. -/
theorem c1_check_dir_absent (fs : Fs) (cwd : List String) (p : RawPath)
    (h : fsExists fs (abspath cwd p) = false)
    (hpre : (mkdirPaths (abspath cwd p)).any (fun q => isfile fs q) = false) :
    check_dir fs cwd p false false = Except.ok (fs, abspath cwd p) ∧
      ∃ fs', check_dir fs cwd p true false = Except.ok (fs', abspath cwd p) ∧
        isdir fs' (abspath cwd p) = true := by
  constructor
  · unfold check_dir
    simp [h]
  · refine ⟨(mkdirPaths (abspath cwd p)).foldl
      (fun a q => fsAdd a q Entry.dir) fs, ?_, ?_⟩
    · unfold check_dir
      simp only [h, Bool.false_eq_true, if_false, if_true]
      unfold makedirs
      rw [hpre]
      simp
    · unfold isdir
      rw [fsLookup_foldl_fsAdd]
      · intro q hq
        rw [← isfile_false_iff]
        rcases List.any_eq_false.mp hpre q hq with hf
        simpa using hf
      · right
        unfold mkdirPaths
        refine List.mem_map.mpr ⟨(abspath cwd p).length, ?_, ?_⟩
        · exact List.mem_range.mpr (Nat.lt_succ_self _)
        · exact List.take_length _

/-- C1 witness: concrete instantiation on the empty filesystem and the
relative path `x/y`. -/
theorem c1_witness :
    fsExists fsEmpty (abspath [] (parsePath "x/y")) = false ∧
      (mkdirPaths (abspath [] (parsePath "x/y"))).any
        (fun q => isfile fsEmpty q) = false ∧
      check_dir fsEmpty [] (parsePath "x/y") false false
        = Except.ok (fsEmpty, abspath [] (parsePath "x/y")) ∧
      ∃ fs', check_dir fsEmpty [] (parsePath "x/y") true false
          = Except.ok (fs', abspath [] (parsePath "x/y")) ∧
        isdir fs' (abspath [] (parsePath "x/y")) = true := by
  refine ⟨by decide, by decide, ?_⟩
  exact c1_check_dir_absent fsEmpty [] (parsePath "x/y") (by decide) (by decide)

section PathSpelling

theorem normPath_snoc_empty (l : List String) :
    normPath (l ++ [""]) = normPath l := by
  unfold normPath
  rw [List.foldl_append]
  rfl

theorem check_dir_ok_of_isdir (fs : Fs) (cwd : List String) (p : RawPath)
    (create : Bool) (h : isdir fs (abspath cwd p) = true) :
    check_dir fs cwd p create false = Except.ok (fs, abspath cwd p) := by
  unfold check_dir
  simp [isdir_exists h, h]

/-- Appends a trailing slash to a raw path (an extra empty component). -/
def withTrailingSlash (p : RawPath) : RawPath :=
  { absolute := p.absolute, comps := p.comps ++ [""] }

/-- The fully absolute spelling of a raw path relative to a working
directory: the working directory's components are prepended when the
path is relative. -/
def absoluteSpelling (cwd : List String) (p : RawPath) : RawPath :=
  { absolute := true
    comps := if p.absolute then p.comps else cwd ++ p.comps }

theorem abspath_withTrailingSlash (cwd : List String) (p : RawPath) :
    abspath cwd (withTrailingSlash p) = abspath cwd p := by
  unfold abspath withTrailingSlash
  cases hab : p.absolute with
  | true => simp [normPath_snoc_empty]
  | false => simp [← List.append_assoc, normPath_snoc_empty]

theorem abspath_absoluteSpelling (cwd : List String) (p : RawPath) :
    abspath cwd (absoluteSpelling cwd p) = abspath cwd p := by
  unfold abspath absoluteSpelling
  cases hab : p.absolute with
  | true => simp
  | false => simp

/-- C9: for an existing directory, `check_dir` succeeds and returns the
same resolved absolute path under every spelling of that directory: as
given, with a trailing slash, and in fully absolute form. -/
theorem c9_check_dir_spelling (fs : Fs) (cwd : List String) (p : RawPath)
    (h : isdir fs (abspath cwd p) = true) :
    check_dir fs cwd p false false = Except.ok (fs, abspath cwd p) ∧
      check_dir fs cwd (withTrailingSlash p) false false
        = Except.ok (fs, abspath cwd p) ∧
      check_dir fs cwd (absoluteSpelling cwd p) false false
        = Except.ok (fs, abspath cwd p) := by
  refine ⟨check_dir_ok_of_isdir fs cwd p false h, ?_, ?_⟩
  · have := check_dir_ok_of_isdir fs cwd (withTrailingSlash p) false
      (by rw [abspath_withTrailingSlash]; exact h)
    rwa [abspath_withTrailingSlash] at this
  · have := check_dir_ok_of_isdir fs cwd (absoluteSpelling cwd p) false
      (by rw [abspath_absoluteSpelling]; exact h)
    rwa [abspath_absoluteSpelling] at this

/-- C9 witness filesystem: a single existing directory `/a`. -/
def fsOneDir : Fs := [(["a"], Entry.dir)]

/-- C9 witness: concrete instantiation on the existing directory `a`
addressed relatively from the root working directory. -/
theorem c9_witness :
    isdir fsOneDir (abspath [] (parsePath "a")) = true ∧
      check_dir fsOneDir [] (parsePath "a") false false
        = Except.ok (fsOneDir, abspath [] (parsePath "a")) ∧
      check_dir fsOneDir [] (withTrailingSlash (parsePath "a")) false false
        = Except.ok (fsOneDir, abspath [] (parsePath "a")) ∧
      check_dir fsOneDir [] (absoluteSpelling [] (parsePath "a")) false false
        = Except.ok (fsOneDir, abspath [] (parsePath "a")) := by
  exact ⟨by decide, c9_check_dir_spelling fsOneDir [] (parsePath "a") (by decide)⟩

end PathSpelling

section Execute

/-- Result of attempting to launch one external command, as observed by
`subprocess.call`: either the child ran and produced a status (negative
when killed by a signal), or the launch failed at the OS level. -/
inductive CallResult
  | exited (retcode : Int)
  | oserror (errno : Int) (strerror : String)
deriving DecidableEq, Repr

/-- Models `execute` from the script: exit status 0 is success, a
negative status raises `Fail` naming the signal, a positive status raises
`Fail` naming the exit code, and an `OSError` on launch raises `Fail`
with the OS error code and message. -/
def execute (r : CallResult) : Except PyErr Unit :=
  match r with
  | CallResult.exited rc =>
    if rc < 0 then
      Except.error (PyErr.fail (some
        ("Child was terminated by signal: " ++ toString (-rc))))
    else if rc > 0 then
      Except.error (PyErr.fail (some ("Child returned: " ++ toString rc)))
    else
      Except.ok ()
  | CallResult.oserror errno strerror =>
    Except.error (PyErr.fail (some
      ("Execution failed: " ++ toString errno ++ " / " ++ strerror)))

/-- C4: exit status 0 returns normally; a positive exit status n raises
`Fail` whose message encodes n; termination by signal k (status -k)
raises `Fail` whose message encodes k; an OS-level launch failure raises
`Fail` carrying the OS error code and message. -/
theorem c4_execute_codes (n k errno : Int) (s : String)
    (hn : 0 < n) (hk : 0 < k) :
    execute (CallResult.exited 0) = Except.ok () ∧
      execute (CallResult.exited n)
        = Except.error (PyErr.fail (some ("Child returned: " ++ toString n))) ∧
      execute (CallResult.exited (-k))
        = Except.error (PyErr.fail (some
            ("Child was terminated by signal: " ++ toString k))) ∧
      execute (CallResult.oserror errno s)
        = Except.error (PyErr.fail (some
            ("Execution failed: " ++ toString errno ++ " / " ++ s))) := by
  refine ⟨rfl, ?_, ?_, rfl⟩
  · simp only [execute]
    rw [if_neg (by omega), if_pos hn]
  · simp only [execute]
    rw [if_pos (by omega), neg_neg]

/-- C4 witness: concrete exit codes 0 and 7, signal 9, and an OS launch
failure with errno 2. -/
theorem c4_witness :
    execute (CallResult.exited 0) = Except.ok () ∧
      execute (CallResult.exited 7)
        = Except.error (PyErr.fail (some "Child returned: 7")) ∧
      execute (CallResult.exited (-9))
        = Except.error (PyErr.fail (some
            "Child was terminated by signal: 9")) ∧
      execute (CallResult.oserror 2 "No such file or directory")
        = Except.error (PyErr.fail (some
            "Execution failed: 2 / No such file or directory")) := by
  exact c4_execute_codes 7 9 2 "No such file or directory"
    (by decide) (by decide)

end Execute

section CmakeCommand

/-- The command-line option record parsed by `argparse` in the script:
the positional build directory, the two defaulted directory options
(`emscripten_dir` is `none` when neither `--emscripten_dir` nor the
`EMSCRIPTEN` environment variable supplies it), and the boolean flags. -/
structure Options where
  build_dir : RawPath
  opencv_dir : RawPath
  emscripten_dir : Option RawPath
  build_wasm : Bool
  disable_wasm : Bool
  build_test : Bool
  build_doc : Bool
  clean_build_dir : Bool
  skip_config : Bool
  config_only : Bool
  enable_exception : Bool
deriving DecidableEq, Repr

/-- The `Builder` object after `__init__` validated the three
directories: the option record plus the three resolved absolute paths. -/
structure Builder where
  options : Options
  build_dir : List String
  opencv_dir : List String
  emscripten_dir : List String
deriving DecidableEq, Repr

/-- Models `Builder.get_toolchain_file`: joins the Emscripten directory
with the fixed toolchain-file relative path. -/
def Builder.get_toolchain_file (b : Builder) : String :=
  renderPath b.emscripten_dir ++ "/cmake/Modules/Platform/Emscripten.cmake"

/-- Models `Builder.get_build_flags`: starts from the empty string,
always appends the pthreads-off flag, then the target-format flag when
one of `--build_wasm` / `--disable_wasm` is set, then the
exception-catching flag when `--enable_exception` is set. -/
def Builder.get_build_flags (b : Builder) : String :=
  let flags := ""
  let flags := flags ++ "-s USE_PTHREADS=0 "
  let flags :=
    if b.options.build_wasm then flags ++ "-s WASM=1 "
    else if b.options.disable_wasm then flags ++ "-s WASM=0 "
    else flags
  let flags :=
    if b.options.enable_exception then
      flags ++ "-s DISABLE_EXCEPTION_CATCHING=0 "
    else flags
  flags

/-- The fixed baseline of the configure command from `get_cmake_cmd`,
parameterized only by the toolchain file path (third element). -/
def cmakeBase (toolchainFile : String) : List String :=
  ["cmake",
   "-DCMAKE_BUILD_TYPE=Release",
   "-DCMAKE_TOOLCHAIN_FILE=\x27" ++ toolchainFile ++ "\x27",
   "-DCPU_BASELINE=\x27\x27",
   "-DCPU_DISPATCH=\x27\x27",
   "-DCV_TRACE=OFF",
   "-DBUILD_SHARED_LIBS=OFF",
   "-DWITH_1394=OFF",
   "-DWITH_ADE=OFF",
   "-DWITH_VTK=OFF",
   "-DWITH_EIGEN=OFF",
   "-DWITH_FFMPEG=OFF",
   "-DWITH_GSTREAMER=OFF",
   "-DWITH_GTK=OFF",
   "-DWITH_GTK_2_X=OFF",
   "-DWITH_IPP=OFF",
   "-DWITH_JASPER=OFF",
   "-DWITH_JPEG=OFF",
   "-DWITH_WEBP=OFF",
   "-DWITH_OPENEXR=OFF",
   "-DWITH_OPENGL=OFF",
   "-DWITH_OPENVX=OFF",
   "-DWITH_OPENNI=OFF",
   "-DWITH_OPENNI2=OFF",
   "-DWITH_PNG=OFF",
   "-DWITH_TBB=OFF",
   "-DWITH_PTHREADS_PF=OFF",
   "-DWITH_TIFF=OFF",
   "-DWITH_V4L=OFF",
   "-DWITH_OPENCL=OFF",
   "-DWITH_OPENCL_SVM=OFF",
   "-DWITH_OPENCLAMDFFT=OFF",
   "-DWITH_OPENCLAMDBLAS=OFF",
   "-DWITH_GPHOTO2=OFF",
   "-DWITH_LAPACK=OFF",
   "-DWITH_ITT=OFF",
   "-DWITH_QUIRC=OFF",
   "-DBUILD_ZLIB=ON",
   "-DBUILD_opencv_apps=OFF",
   "-DBUILD_opencv_calib3d=ON",
   "-DBUILD_opencv_dnn=ON",
   "-DBUILD_opencv_features2d=ON",
   "-DBUILD_opencv_flann=ON",
   "-DBUILD_opencv_gapi=OFF",
   "-DBUILD_opencv_ml=OFF",
   "-DBUILD_opencv_photo=ON",
   "-DBUILD_opencv_imgcodecs=OFF",
   "-DBUILD_opencv_shape=OFF",
   "-DBUILD_opencv_videoio=OFF",
   "-DBUILD_opencv_videostab=OFF",
   "-DBUILD_opencv_highgui=OFF",
   "-DBUILD_opencv_superres=OFF",
   "-DBUILD_opencv_stitching=OFF",
   "-DBUILD_opencv_java=OFF",
   "-DBUILD_opencv_java_bindings_generator=OFF",
   "-DBUILD_opencv_js=ON",
   "-DBUILD_opencv_python2=OFF",
   "-DBUILD_opencv_python3=OFF",
   "-DBUILD_opencv_python_bindings_generator=OFF",
   "-DBUILD_EXAMPLES=OFF",
   "-DBUILD_PACKAGE=OFF",
   "-DBUILD_TESTS=OFF",
   "-DBUILD_PERF_TESTS=OFF"]

/-- Models `Builder.get_cmake_cmd`: the fixed baseline, then the docs
toggle (`ON` exactly when `--build_doc` is set, `OFF` otherwise), then
the two compiler-flag arguments appended when the flag string is
non-empty (mirroring Python string truthiness in `if flags:`). -/
def Builder.get_cmake_cmd (b : Builder) : List String :=
  (cmakeBase b.get_toolchain_file
      ++ [if b.options.build_doc then "-DBUILD_DOCS=ON" else "-DBUILD_DOCS=OFF"])
    ++ (if b.get_build_flags ≠ "" then
          ["-DCMAKE_C_FLAGS=\x27" ++ b.get_build_flags ++ "\x27",
           "-DCMAKE_CXX_FLAGS=\x27" ++ b.get_build_flags ++ "\x27"]
        else [])

theorem get_build_flags_eq (b : Builder) :
    ∃ r, b.get_build_flags = "-s USE_PTHREADS=0 " ++ r := by
  obtain ⟨⟨bd, ocv, ems, bw, dw, bt, bdoc, cbd, sc, co, ee⟩, p1, p2, p3⟩ := b
  cases bw <;> cases dw <;> cases ee <;>
    first
      | exact ⟨"", rfl⟩
      | exact ⟨"-s WASM=1 ", rfl⟩
      | exact ⟨"-s WASM=0 ", rfl⟩
      | exact ⟨"-s DISABLE_EXCEPTION_CATCHING=0 ", rfl⟩
      | exact ⟨"-s WASM=1 -s DISABLE_EXCEPTION_CATCHING=0 ", rfl⟩
      | exact ⟨"-s WASM=0 -s DISABLE_EXCEPTION_CATCHING=0 ", rfl⟩

theorem get_build_flags_ne_empty (b : Builder) : b.get_build_flags ≠ "" := by
  obtain ⟨r, hr⟩ := get_build_flags_eq b
  intro h0
  rw [h0] at hr
  have hl := congrArg String.length hr
  rw [String.length_append] at hl
  have h0l : ("" : String).length = 0 := rfl
  have h18 : ("-s USE_PTHREADS=0 ").length = 18 := rfl
  omega

theorem cflags_mem (b : Builder) :
    ("-DCMAKE_C_FLAGS=\x27" ++ b.get_build_flags ++ "\x27")
      ∈ b.get_cmake_cmd := by
  unfold Builder.get_cmake_cmd
  rw [if_pos (get_build_flags_ne_empty b)]
  apply List.mem_append_right
  exact List.mem_cons_self _ _

theorem cxxflags_mem (b : Builder) :
    ("-DCMAKE_CXX_FLAGS=\x27" ++ b.get_build_flags ++ "\x27")
      ∈ b.get_cmake_cmd := by
  unfold Builder.get_cmake_cmd
  rw [if_pos (get_build_flags_ne_empty b)]
  apply List.mem_append_right
  exact List.mem_cons_of_mem _ (List.mem_cons_self _ _)

theorem base_mem_of_tail (b : Builder) (x : String)
    (h : x ∈ ["-DCPU_BASELINE=\x27\x27",
      "-DCPU_DISPATCH=\x27\x27",
      "-DCV_TRACE=OFF", "-DBUILD_SHARED_LIBS=OFF", "-DWITH_1394=OFF",
      "-DWITH_ADE=OFF", "-DWITH_VTK=OFF", "-DWITH_EIGEN=OFF",
      "-DWITH_FFMPEG=OFF", "-DWITH_GSTREAMER=OFF", "-DWITH_GTK=OFF",
      "-DWITH_GTK_2_X=OFF", "-DWITH_IPP=OFF", "-DWITH_JASPER=OFF",
      "-DWITH_JPEG=OFF", "-DWITH_WEBP=OFF", "-DWITH_OPENEXR=OFF",
      "-DWITH_OPENGL=OFF", "-DWITH_OPENVX=OFF", "-DWITH_OPENNI=OFF",
      "-DWITH_OPENNI2=OFF", "-DWITH_PNG=OFF", "-DWITH_TBB=OFF",
      "-DWITH_PTHREADS_PF=OFF", "-DWITH_TIFF=OFF", "-DWITH_V4L=OFF",
      "-DWITH_OPENCL=OFF", "-DWITH_OPENCL_SVM=OFF",
      "-DWITH_OPENCLAMDFFT=OFF", "-DWITH_OPENCLAMDBLAS=OFF",
      "-DWITH_GPHOTO2=OFF", "-DWITH_LAPACK=OFF", "-DWITH_ITT=OFF",
      "-DWITH_QUIRC=OFF", "-DBUILD_ZLIB=ON", "-DBUILD_opencv_apps=OFF",
      "-DBUILD_opencv_calib3d=ON", "-DBUILD_opencv_dnn=ON",
      "-DBUILD_opencv_features2d=ON", "-DBUILD_opencv_flann=ON",
      "-DBUILD_opencv_gapi=OFF", "-DBUILD_opencv_ml=OFF",
      "-DBUILD_opencv_photo=ON", "-DBUILD_opencv_imgcodecs=OFF",
      "-DBUILD_opencv_shape=OFF", "-DBUILD_opencv_videoio=OFF",
      "-DBUILD_opencv_videostab=OFF", "-DBUILD_opencv_highgui=OFF",
      "-DBUILD_opencv_superres=OFF", "-DBUILD_opencv_stitching=OFF",
      "-DBUILD_opencv_java=OFF",
      "-DBUILD_opencv_java_bindings_generator=OFF",
      "-DBUILD_opencv_js=ON", "-DBUILD_opencv_python2=OFF",
      "-DBUILD_opencv_python3=OFF",
      "-DBUILD_opencv_python_bindings_generator=OFF",
      "-DBUILD_EXAMPLES=OFF", "-DBUILD_PACKAGE=OFF", "-DBUILD_TESTS=OFF",
      "-DBUILD_PERF_TESTS=OFF"]) :
    x ∈ b.get_cmake_cmd := by
  unfold Builder.get_cmake_cmd
  apply List.mem_append_left
  apply List.mem_append_left
  unfold cmakeBase
  exact List.mem_cons_of_mem _ (List.mem_cons_of_mem _
    (List.mem_cons_of_mem _ h))

/-- C10: for every builder record, the compiler-flag string is non-empty
and begins with the pthreads-off flag, and consequently the
`CMAKE_C_FLAGS` and `CMAKE_CXX_FLAGS` arguments are appended to the
configure command unconditionally (the `if flags` guard is always
taken). -/
theorem c10_build_flags_always (b : Builder) :
    (∃ r, b.get_build_flags = "-s USE_PTHREADS=0 " ++ r) ∧
      b.get_build_flags ≠ "" ∧
      ("-DCMAKE_C_FLAGS=\x27" ++ b.get_build_flags ++ "\x27")
        ∈ b.get_cmake_cmd ∧
      ("-DCMAKE_CXX_FLAGS=\x27" ++ b.get_build_flags ++ "\x27")
        ∈ b.get_cmake_cmd :=
  ⟨get_build_flags_eq b, get_build_flags_ne_empty b,
    cflags_mem b, cxxflags_mem b⟩

/-- Option record for a run requesting only `--build_test`
(counterexample input for C3). -/
def optsBuildTest : Options :=
  { build_dir := parsePath "b"
    opencv_dir := parsePath "s"
    emscripten_dir := some (parsePath "e")
    build_wasm := false
    disable_wasm := false
    build_test := true
    build_doc := false
    clean_build_dir := false
    skip_config := false
    config_only := false
    enable_exception := false }

/-- Builder for `optsBuildTest` with resolved directories. -/
def builderBuildTest : Builder :=
  { options := optsBuildTest
    build_dir := ["b"]
    opencv_dir := ["s"]
    emscripten_dir := ["e"] }

/-- C3, as stated, is false: even when `--build_test` is given, the
test-disabling toggles are still passed to the configure command. -/
theorem c3_counterexample :
    optsBuildTest.build_test = true ∧
      "-DBUILD_TESTS=OFF" ∈ builderBuildTest.get_cmake_cmd ∧
      "-DBUILD_PERF_TESTS=OFF" ∈ builderBuildTest.get_cmake_cmd := by
  refine ⟨rfl, ?_, ?_⟩ <;>
    · apply base_mem_of_tail
      decide

/-- C3 (amended): the configure command is a deterministic function of
the option record; the tests, performance-tests and examples toggles are
always passed disabled regardless of options; the docs toggle is `ON`
exactly when `--build_doc` is given and `OFF` otherwise; and the
toolchain-file path flag is always included. -/
theorem c3_cmake_cmd_toggles (b : Builder) :
    "-DBUILD_TESTS=OFF" ∈ b.get_cmake_cmd ∧
      "-DBUILD_PERF_TESTS=OFF" ∈ b.get_cmake_cmd ∧
      "-DBUILD_EXAMPLES=OFF" ∈ b.get_cmake_cmd ∧
      (if b.options.build_doc then "-DBUILD_DOCS=ON" else "-DBUILD_DOCS=OFF")
        ∈ b.get_cmake_cmd ∧
      ("-DCMAKE_TOOLCHAIN_FILE=\x27" ++ b.get_toolchain_file ++ "\x27")
        ∈ b.get_cmake_cmd := by
  refine ⟨base_mem_of_tail b _ (by decide), base_mem_of_tail b _ (by decide),
    base_mem_of_tail b _ (by decide), ?_, ?_⟩
  · unfold Builder.get_cmake_cmd
    apply List.mem_append_left
    apply List.mem_append_right
    exact List.mem_cons_self _ _
  · unfold Builder.get_cmake_cmd
    apply List.mem_append_left
    apply List.mem_append_left
    unfold cmakeBase
    exact List.mem_cons_of_mem _ (List.mem_cons_of_mem _
      (List.mem_cons_self _ _))

end CmakeCommand

section CleanBuildDir

/-- The fixed artifact names removed by `Builder.clean_build_dir`,
verbatim from the script (relative paths, resolved against the current
working directory, which `__main__` has changed to the build directory). -/
def cleanTargets : List String :=
  ["CMakeCache.txt", "CMakeFiles/", "bin/", "libs/", "lib/", "modules"]

/-- Models `Builder.clean_build_dir`: applies `rm_one` to each fixed
artifact name in order. -/
def Builder.clean_build_dir (fs : Fs) (cwd : List String) : Fs :=
  cleanTargets.foldl (fun a d => rm_one a cwd (parsePath d)) fs

theorem fsLookup_filter_keep (fs : Fs) (q : List String)
    (p : List String × Entry → Bool) (h : ∀ v, p (q, v) = true) :
    fsLookup (fs.filter p) q = fsLookup fs q := by
  induction fs with
  | nil => rfl
  | cons e rest ih =>
    obtain ⟨k, v⟩ := e
    by_cases hk : k = q
    · subst hk
      simp [List.filter_cons, h v, fsLookup]
    · rw [List.filter_cons]
      cases hp : p (k, v) with
      | true => simp [fsLookup, hk, ih]
      | false => simp [fsLookup, hk, ih]

theorem fsLookup_filter_none (fs : Fs) (q : List String)
    (p : List String × Entry → Bool) (h : ∀ v, p (q, v) = false) :
    fsLookup (fs.filter p) q = none := by
  induction fs with
  | nil => rfl
  | cons e rest ih =>
    obtain ⟨k, v⟩ := e
    rw [List.filter_cons]
    by_cases hk : k = q
    · subst hk
      simp [h v, ih]
    · cases hp : p (k, v) with
      | true => simp [fsLookup, hk, ih]
      | false => simp [ih]

theorem fsLookup_filter_of_none (fs : Fs) (q : List String)
    (p : List String × Entry → Bool) (h : fsLookup fs q = none) :
    fsLookup (fs.filter p) q = none := by
  induction fs with
  | nil => rfl
  | cons e rest ih =>
    obtain ⟨k, v⟩ := e
    unfold fsLookup at h
    by_cases hk : k = q
    · rw [if_pos hk] at h; cases h
    · rw [if_neg hk] at h
      rw [List.filter_cons]
      cases hp : p (k, v) with
      | true => simp [fsLookup, hk, ih h]
      | false => simp [ih h]

theorem isPrefixOf_self (l : List String) : l.isPrefixOf l = true := by
  induction l with
  | nil => rfl
  | cons a t ih => simp [List.isPrefixOf, ih]

theorem rm_one_lookup_of_not (fs : Fs) (cwd : List String) (t : RawPath)
    (q : List String) (h : (abspath cwd t).isPrefixOf q = false) :
    fsLookup (rm_one fs cwd t) q = fsLookup fs q := by
  unfold rm_one
  by_cases he : fsExists fs (abspath cwd t) = true
  · simp only [he, if_true]
    by_cases hd : isdir fs (abspath cwd t) = true
    · simp only [hd, if_true]
      apply fsLookup_filter_keep
      intro v
      simp [h]
    · simp only [hd, if_false]
      by_cases hf : isfile fs (abspath cwd t) = true
      · simp only [hf, if_true]
        apply fsLookup_filter_keep
        intro v
        have hq : ¬ q = abspath cwd t := by
          intro he'
          rw [he'] at h
          rw [isPrefixOf_self] at h
          cases h
        simp [hq]
      · simp [hf]
  · simp [he]

theorem rm_one_absent (fs : Fs) (cwd : List String) (t : RawPath)
    (h : fsExists fs (abspath cwd t) = false) : rm_one fs cwd t = fs := by
  unfold rm_one
  simp [h]

theorem rm_one_self (fs : Fs) (cwd : List String) (t : RawPath) :
    fsLookup (rm_one fs cwd t) (abspath cwd t) = none := by
  by_cases he : fsExists fs (abspath cwd t) = true
  · unfold rm_one
    simp only [he, if_true]
    by_cases hd : isdir fs (abspath cwd t) = true
    · simp only [hd, if_true]
      apply fsLookup_filter_none
      intro v
      simp [isPrefixOf_self]
    · simp only [hd, if_false]
      by_cases hf : isfile fs (abspath cwd t) = true
      · simp only [hf, if_true]
        apply fsLookup_filter_none
        intro v
        simp
      · exfalso
        unfold fsExists at he
        unfold isdir at hd
        unfold isfile at hf
        cases hl : fsLookup fs (abspath cwd t) with
        | none => rw [hl] at he; cases he
        | some e =>
          cases e with
          | dir => rw [hl] at hd; exact hd rfl
          | file => rw [hl] at hf; exact hf rfl
  · have he' : fsExists fs (abspath cwd t) = false := by
      cases hx : fsExists fs (abspath cwd t) with
      | false => rfl
      | true => exact absurd hx he
    rw [rm_one_absent fs cwd t he']
    unfold fsExists at he'
    cases hl : fsLookup fs (abspath cwd t) with
    | none => rfl
    | some e => rw [hl] at he'; simp at he'

theorem rm_one_none (fs : Fs) (cwd : List String) (t : RawPath)
    (q : List String) (h : fsLookup fs q = none) :
    fsLookup (rm_one fs cwd t) q = none := by
  unfold rm_one
  by_cases he : fsExists fs (abspath cwd t) = true
  · simp only [he, if_true]
    by_cases hd : isdir fs (abspath cwd t) = true
    · simp only [hd, if_true]
      exact fsLookup_filter_of_none fs q _ h
    · simp only [hd, if_false]
      by_cases hf : isfile fs (abspath cwd t) = true
      · simp only [hf, if_true]
        exact fsLookup_filter_of_none fs q _ h
      · simp [hf, h]
  · simp [he, h]

theorem cleanFold_lookup_of_not (names : List String) (fs : Fs)
    (cwd q : List String)
    (h : ∀ n ∈ names, (abspath cwd (parsePath n)).isPrefixOf q = false) :
    fsLookup (names.foldl (fun a d => rm_one a cwd (parsePath d)) fs) q
      = fsLookup fs q := by
  induction names generalizing fs with
  | nil => rfl
  | cons m rest ih =>
    simp only [List.foldl_cons]
    rw [ih (rm_one fs cwd (parsePath m))
      (fun n hn => h n (List.mem_cons_of_mem _ hn))]
    exact rm_one_lookup_of_not fs cwd (parsePath m) q
      (h m (List.mem_cons_self _ _))

theorem cleanFold_none (names : List String) (fs : Fs)
    (cwd q : List String) (h : fsLookup fs q = none) :
    fsLookup (names.foldl (fun a d => rm_one a cwd (parsePath d)) fs) q
      = none := by
  induction names generalizing fs with
  | nil => exact h
  | cons m rest ih =>
    simp only [List.foldl_cons]
    exact ih _ (rm_one_none fs cwd (parsePath m) q h)

theorem cleanFold_target (names : List String) (n : String)
    (hn : n ∈ names) (fs : Fs) (cwd : List String) :
    fsLookup (names.foldl (fun a d => rm_one a cwd (parsePath d)) fs)
      (abspath cwd (parsePath n)) = none := by
  induction names generalizing fs with
  | nil => cases hn
  | cons m rest ih =>
    simp only [List.foldl_cons]
    rcases List.mem_cons.mp hn with he | hr
    · subst he
      exact cleanFold_none rest _ cwd _ (rm_one_self fs cwd (parsePath n))
    · exact ih hr _

theorem cleanFold_absent (names : List String) (fs : Fs)
    (cwd : List String)
    (h : ∀ n ∈ names, fsExists fs (abspath cwd (parsePath n)) = false) :
    names.foldl (fun a d => rm_one a cwd (parsePath d)) fs = fs := by
  induction names with
  | nil => rfl
  | cons m rest ih =>
    simp only [List.foldl_cons]
    rw [rm_one_absent fs cwd (parsePath m) (h m (List.mem_cons_self _ _))]
    exact ih (fun n hn => h n (List.mem_cons_of_mem _ hn))

/-- C7: cleaning the build directory removes exactly the fixed artifact
entries (and their contents, for directories): any path not equal to or
under one of the resolved targets keeps its binding unchanged; every
resolved target is absent afterwards; and when all targets are already
absent, cleaning is a no-op (in particular it never fails: it is a total
function, tolerant of absent entries). -/
theorem c7_clean_build_dir_spec (fs : Fs) (cwd : List String) :
    (∀ q, (∀ n ∈ cleanTargets,
        (abspath cwd (parsePath n)).isPrefixOf q = false) →
      fsLookup (Builder.clean_build_dir fs cwd) q = fsLookup fs q) ∧
    (∀ n ∈ cleanTargets,
      fsLookup (Builder.clean_build_dir fs cwd)
        (abspath cwd (parsePath n)) = none) ∧
    ((∀ n ∈ cleanTargets,
        fsExists fs (abspath cwd (parsePath n)) = false) →
      Builder.clean_build_dir fs cwd = fs) := by
  refine ⟨?_, ?_, ?_⟩
  · intro q hq
    exact cleanFold_lookup_of_not cleanTargets fs cwd q hq
  · intro n hn
    exact cleanFold_target cleanTargets n hn fs cwd
  · intro h
    exact cleanFold_absent cleanTargets fs cwd h

/-- C7 witness filesystem: a build directory `/w` containing a target
directory with a nested file, a target file, and an unrelated file. -/
def fsC7 : Fs :=
  [(["w"], Entry.dir),
   (["w", "bin"], Entry.dir),
   (["w", "bin", "opencv.js"], Entry.file),
   (["w", "CMakeCache.txt"], Entry.file),
   (["w", "keep.txt"], Entry.file)]

/-- C7 witness: on the concrete build directory `/w`, the unrelated file
is preserved, the target entries are removed, and cleaning the empty
filesystem (all targets absent) is a no-op. -/
theorem c7_witness :
    ((∀ n ∈ cleanTargets,
        (abspath ["w"] (parsePath n)).isPrefixOf ["w", "keep.txt"] = false) ∧
      fsLookup (Builder.clean_build_dir fsC7 ["w"]) ["w", "keep.txt"]
        = fsLookup fsC7 ["w", "keep.txt"]) ∧
    ("bin/" ∈ cleanTargets ∧
      fsLookup (Builder.clean_build_dir fsC7 ["w"])
        (abspath ["w"] (parsePath "bin/")) = none) ∧
    ((∀ n ∈ cleanTargets,
        fsExists fsEmpty (abspath ["w"] (parsePath n)) = false) ∧
      Builder.clean_build_dir fsEmpty ["w"] = fsEmpty) := by
  refine ⟨⟨by decide, ?_⟩, ⟨by decide, ?_⟩, ⟨by decide, ?_⟩⟩
  · exact (c7_clean_build_dir_spec fsC7 ["w"]).1 ["w", "keep.txt"] (by decide)
  · exact (c7_clean_build_dir_spec fsC7 ["w"]).2.1 "bin/" (by decide)
  · exact (c7_clean_build_dir_spec fsEmpty ["w"]).2.2 (by decide)

end CleanBuildDir

section MainFlow

/-- A subprocess oracle: given the command and the filesystem at launch
time, the observed `subprocess.call` outcome and the filesystem the
external command leaves behind. -/
abbrev Oracle := List String → Fs → CallResult × Fs

/-- The outcome of a whole run of `__main__`: the external commands
executed (in order), the final filesystem, the artifact-location lines
printed by the final report, and the exit: `Except.ok code` for a normal
`sys.exit`/fall-through, `Except.error` for an uncaught exception
(which makes the interpreter exit non-zero). -/
structure MainResult where
  trace : List (List String)
  fs : Fs
  printed : List String
  exit : Except PyErr Int

/-- One `make -j N target` command as built by the `Builder.build_*`
methods (`N` models `multiprocessing.cpu_count()`). -/
def make_cmd (ncpu : Nat) (target : String) : List String :=
  ["make", "-j", toString ncpu, target]

/-- The full configure command executed by `Builder.config`: the
assembled cmake command with the source directory appended. -/
def Builder.config_cmd (b : Builder) : List String :=
  b.get_cmake_cmd ++ [renderPath b.opencv_dir]

/-- Models `find_file`: walks the filesystem subtree under `root` and
returns the path of a file named `name`, or `none` when there is none
(`os.walk` on a missing root yields nothing).  The walk order of
`os.walk` is unspecified; the model takes the first binding in
filesystem order. -/
def find_file (fs : Fs) (name : String) (root : List String) :
    Option (List String) :=
  (fs.find? (fun e =>
      root.isPrefixOf e.1 && decide (root.length < e.1.length) &&
        decide (e.1.getLastD "" = name) &&
        decide (e.2 = Entry.file))).map Prod.fst

/-- Models `check_file`: on a path string, resolve it and report whether
it exists as a regular file (the script's nested `exists`/`isfile`
checks collapse to their conjunction); on `None` — which happens when
`find_file` found nothing — `os.path.abspath(None)` raises a
`TypeError`. -/
def check_file (fs : Fs) (cwd : List String) :
    Option RawPath → Except PyErr Bool
  | none => Except.error (PyErr.typeError
      "expected str, bytes or os.PathLike object, not NoneType")
  | some p =>
    let d := abspath cwd p
    Except.ok (fsExists fs d && isfile fs d)

/-- Models the artifact-reporting epilogue of `__main__`: check the main
artifact path and print it when present; when `--build_test` was given,
likewise for the test bundle; when `--build_doc` was given, search for
the tutorials root page and check the found path (crashing with a
`TypeError` when the search came up empty). -/
def reportPhase (fs : Fs) (cwd : List String) (o : Options)
    (bd : List String) : Except PyErr (List String) :=
  match check_file fs cwd
      (some { absolute := true, comps := bd ++ ["bin", "opencv.js"] }) with
  | Except.error e => Except.error e
  | Except.ok b1 =>
    let p1 := if b1 then
        ["OpenCV.js location: " ++ renderPath (bd ++ ["bin", "opencv.js"])]
      else []
    match (if o.build_test then
        check_file fs cwd
          (some { absolute := true, comps := bd ++ ["bin", "tests.html"] })
      else Except.ok false) with
    | Except.error e => Except.error e
    | Except.ok b2 =>
      let p2 := if b2 then
          ["OpenCV.js tests location: "
            ++ renderPath (bd ++ ["bin", "tests.html"])]
        else []
      if o.build_doc then
        let found := find_file fs "tutorial_js_root.html"
          (bd ++ ["doc", "doxygen", "html"])
        match check_file fs cwd
            (found.map (fun p => { absolute := true, comps := p })) with
        | Except.error e => Except.error e
        | Except.ok b3 =>
          Except.ok (p1 ++ p2 ++
            (if b3 then
              ["OpenCV.js tutorials location: " ++ renderPath (found.getD [])]
            else []))
      else Except.ok (p1 ++ p2)

/-- Runs one external command through the oracle and `execute`; on
success continues with the new filesystem and extended trace, on `Fail`
aborts the run with the error. -/
def stepAndThen (outcome : Oracle) (cmd : List String) (fs : Fs)
    (tr : List (List String))
    (k : Fs → List (List String) → MainResult) : MainResult :=
  match outcome cmd fs with
  | (r, fs') =>
    match execute r with
    | Except.error e =>
      { trace := tr ++ [cmd], fs := fs', printed := [], exit := Except.error e }
    | Except.ok _ => k fs' (tr ++ [cmd])

/-- The tail of `__main__` after all builds: run the report and exit 0,
or abort with the report's exception. -/
def finishPhase (o : Options) (b : Builder) (fs : Fs)
    (tr : List (List String)) : MainResult :=
  match reportPhase fs b.build_dir o b.build_dir with
  | Except.error e =>
    { trace := tr, fs := fs, printed := [], exit := Except.error e }
  | Except.ok lines =>
    { trace := tr, fs := fs, printed := lines, exit := Except.ok 0 }

/-- The optional documentation build (`make doxygen`), then the report. -/
def docPhase (o : Options) (b : Builder) (ncpu : Nat) (outcome : Oracle)
    (fs : Fs) (tr : List (List String)) : MainResult :=
  if o.build_doc then
    stepAndThen outcome (make_cmd ncpu "doxygen") fs tr
      (fun fs' tr' => finishPhase o b fs' tr')
  else finishPhase o b fs tr

/-- The optional test build (`make opencv_js_test`), then the doc phase. -/
def testPhase (o : Options) (b : Builder) (ncpu : Nat) (outcome : Oracle)
    (fs : Fs) (tr : List (List String)) : MainResult :=
  if o.build_test then
    stepAndThen outcome (make_cmd ncpu "opencv_js_test") fs tr
      (fun fs' tr' => docPhase o b ncpu outcome fs' tr')
  else docPhase o b ncpu outcome fs tr

/-- The unconditional main-artifact build (`make opencv.js`), then the
test phase. -/
def buildJsPhase (o : Options) (b : Builder) (ncpu : Nat) (outcome : Oracle)
    (fs : Fs) (tr : List (List String)) : MainResult :=
  stepAndThen outcome (make_cmd ncpu "opencv.js") fs tr
    (fun fs' tr' => testPhase o b ncpu outcome fs' tr')

/-- The `--config_only` early `sys.exit(0)`, otherwise the builds. -/
def postConfigPhase (o : Options) (b : Builder) (ncpu : Nat)
    (outcome : Oracle) (fs : Fs) (tr : List (List String)) : MainResult :=
  if o.config_only then
    { trace := tr, fs := fs, printed := [], exit := Except.ok 0 }
  else buildJsPhase o b ncpu outcome fs tr

/-- The configure step (skipped under `--skip_config`), then the rest. -/
def configPhase (o : Options) (b : Builder) (ncpu : Nat) (outcome : Oracle)
    (fs : Fs) : MainResult :=
  if o.skip_config then postConfigPhase o b ncpu outcome fs []
  else
    stepAndThen outcome b.config_cmd fs []
      (fun fs' tr' => postConfigPhase o b ncpu outcome fs' tr')

/-- Models the argparse default for `--emscripten_dir`: the explicit
option when given, else the `EMSCRIPTEN` environment variable, else
nothing. -/
def resolve_emscripten (cli env : Option RawPath) : Option RawPath :=
  match cli with
  | some p => some p
  | none => env

/-- Models `__main__`: abort with `sys.exit(-1)` when the Emscripten
directory is unresolved; validate/create the three directories
(`Builder.__init__`), aborting on an uncaught exception; `os.chdir` to
the build directory; optionally clean; then run configure and the
builds, and finally the artifact report. -/
def mainRun (fs0 : Fs) (cwd0 : List String) (o : Options) (ncpu : Nat)
    (outcome : Oracle) : MainResult :=
  match o.emscripten_dir with
  | none => { trace := [], fs := fs0, printed := [], exit := Except.ok (-1) }
  | some emsRaw =>
    match check_dir fs0 cwd0 o.build_dir true false with
    | Except.error e =>
      { trace := [], fs := fs0, printed := [], exit := Except.error e }
    | Except.ok (fs1, bd) =>
      match check_dir fs1 cwd0 o.opencv_dir false false with
      | Except.error e =>
        { trace := [], fs := fs1, printed := [], exit := Except.error e }
      | Except.ok (fs2, ocv) =>
        match check_dir fs2 cwd0 emsRaw false false with
        | Except.error e =>
          { trace := [], fs := fs2, printed := [], exit := Except.error e }
        | Except.ok (fs3, ems) =>
          let b : Builder :=
            { options := o, build_dir := bd
              opencv_dir := ocv, emscripten_dir := ems }
          let fs4 :=
            if o.clean_build_dir then Builder.clean_build_dir fs3 bd else fs3
          configPhase o b ncpu outcome fs4

end MainFlow

section MainFlowTheorems

theorem execute_zero : execute (CallResult.exited 0) = Except.ok () := rfl

theorem finishPhase_trace (o : Options) (b : Builder) (fs : Fs)
    (tr : List (List String)) : (finishPhase o b fs tr).trace = tr := by
  unfold finishPhase
  cases reportPhase fs b.build_dir o b.build_dir <;> rfl

theorem reportPhase_ok_of_not_doc (fs : Fs) (cwd : List String)
    (o : Options) (bd : List String) (h : o.build_doc = false) :
    ∃ lines, reportPhase fs cwd o bd = Except.ok lines := by
  unfold reportPhase
  rw [h]
  cases hbt : o.build_test with
  | false =>
    simp only [if_false, Bool.false_eq_true]
    exact ⟨_, rfl⟩
  | true =>
    simp only [if_true]
    exact ⟨_, rfl⟩

theorem finishPhase_exit_ok (o : Options) (b : Builder) (fs : Fs)
    (tr : List (List String)) (h : o.build_doc = false) :
    (finishPhase o b fs tr).exit = Except.ok 0 := by
  obtain ⟨lines, hl⟩ := reportPhase_ok_of_not_doc fs b.build_dir o
    b.build_dir h
  unfold finishPhase
  rw [hl]

/-- C8: when the Emscripten directory resolves neither from the
`--emscripten_dir` option nor from the `EMSCRIPTEN` environment
variable, the run exits early with the distinguished non-zero code -1:
no external command is executed and the filesystem (in particular the
output directory) is untouched — not even validated or created. -/
theorem c8_unresolved_emscripten (fs : Fs) (cwd : List String)
    (o : Options) (ncpu : Nat) (outcome : Oracle) (cli env : Option RawPath)
    (hr : o.emscripten_dir = resolve_emscripten cli env)
    (hcli : cli = none) (henv : env = none) :
    mainRun fs cwd o ncpu outcome
        = { trace := [], fs := fs, printed := [], exit := Except.ok (-1) } ∧
      (-1 : Int) ≠ 0 := by
  subst hcli henv
  refine ⟨?_, by decide⟩
  unfold mainRun
  rw [hr]
  rfl

/-- Options record with an unresolved Emscripten directory (both the
option and the environment variable absent). -/
def optsNoEmscripten : Options :=
  { build_dir := parsePath "b"
    opencv_dir := parsePath "s"
    emscripten_dir := resolve_emscripten none none
    build_wasm := false
    disable_wasm := false
    build_test := false
    build_doc := false
    clean_build_dir := false
    skip_config := false
    config_only := false
    enable_exception := false }

/-- The always-succeeding subprocess oracle: every command exits 0 and
leaves the filesystem unchanged. -/
def oracleOk : Oracle := fun _ f => (CallResult.exited 0, f)

/-- C8 witness: concrete run with the unresolved toolchain directory. -/
theorem c8_witness :
    mainRun fsEmpty [] optsNoEmscripten 1 oracleOk
        = { trace := [], fs := fsEmpty, printed := [],
            exit := Except.ok (-1) } ∧
      (-1 : Int) ≠ 0 :=
  c8_unresolved_emscripten fsEmpty [] optsNoEmscripten 1 oracleOk
    none none rfl rfl rfl

/-- C6: with `--config_only` (and configuration not skipped), when the
three directories validate and the configure command succeeds, the run
executes exactly the configure command among external steps — no build
step runs — prints nothing, and exits with code 0 immediately. -/
theorem c6_config_only (fs0 fs1 fs2 fs3 : Fs)
    (cwd0 bd ocv ems : List String) (o : Options) (emsR : RawPath)
    (ncpu : Nat) (outcome : Oracle)
    (hems : o.emscripten_dir = some emsR)
    (hco : o.config_only = true) (hsc : o.skip_config = false)
    (h1 : check_dir fs0 cwd0 o.build_dir true false = Except.ok (fs1, bd))
    (h2 : check_dir fs1 cwd0 o.opencv_dir false false = Except.ok (fs2, ocv))
    (h3 : check_dir fs2 cwd0 emsR false false = Except.ok (fs3, ems))
    (hout : ∀ c f, outcome c f = (CallResult.exited 0, f)) :
    (mainRun fs0 cwd0 o ncpu outcome).trace
        = [Builder.config_cmd
            { options := o, build_dir := bd
              opencv_dir := ocv, emscripten_dir := ems }] ∧
      (mainRun fs0 cwd0 o ncpu outcome).exit = Except.ok 0 ∧
      (mainRun fs0 cwd0 o ncpu outcome).printed = [] := by
  have hmain : mainRun fs0 cwd0 o ncpu outcome
      = { trace := [Builder.config_cmd
            { options := o, build_dir := bd
              opencv_dir := ocv, emscripten_dir := ems }]
          fs := if o.clean_build_dir then Builder.clean_build_dir fs3 bd
            else fs3
          printed := [], exit := Except.ok 0 } := by
    unfold mainRun
    simp only [hems, h1, h2, h3]
    unfold configPhase
    simp only [hsc, Bool.false_eq_true, if_false]
    unfold stepAndThen
    simp only [hout, execute_zero]
    unfold postConfigPhase
    simp only [hco, if_true, List.nil_append]
  rw [hmain]
  exact ⟨rfl, rfl, rfl⟩

/-- Options record for a `--config_only` run. -/
def optsConfigOnly : Options :=
  { build_dir := parsePath "b"
    opencv_dir := parsePath "s"
    emscripten_dir := some (parsePath "e")
    build_wasm := false
    disable_wasm := false
    build_test := false
    build_doc := false
    clean_build_dir := false
    skip_config := false
    config_only := true
    enable_exception := false }

/-- Filesystem with the three directories `/b`, `/s`, `/e` existing. -/
def fsThreeDirs : Fs :=
  [(["b"], Entry.dir), (["s"], Entry.dir), (["e"], Entry.dir)]

/-- C6 witness: concrete `--config_only` run over existing directories
with an always-succeeding oracle. -/
theorem c6_witness :
    (mainRun fsThreeDirs [] optsConfigOnly 4 oracleOk).trace
        = [Builder.config_cmd
            { options := optsConfigOnly, build_dir := ["b"]
              opencv_dir := ["s"], emscripten_dir := ["e"] }] ∧
      (mainRun fsThreeDirs [] optsConfigOnly 4 oracleOk).exit
        = Except.ok 0 ∧
      (mainRun fsThreeDirs [] optsConfigOnly 4 oracleOk).printed = [] :=
  c6_config_only fsThreeDirs fsThreeDirs fsThreeDirs fsThreeDirs
    [] ["b"] ["s"] ["e"] optsConfigOnly (parsePath "e") 4 oracleOk
    rfl rfl rfl rfl rfl rfl (fun _ _ => rfl)

end MainFlowTheorems

section WasmTestRun

/-- Options record for a run with exactly `--build_wasm` and
`--build_test` set. -/
def wasmTestOptions (bdR ocvR emsR : RawPath) : Options :=
  { build_dir := bdR
    opencv_dir := ocvR
    emscripten_dir := some emsR
    build_wasm := true
    disable_wasm := false
    build_test := true
    build_doc := false
    clean_build_dir := false
    skip_config := false
    config_only := false
    enable_exception := false }

theorem config_cmd_length_gt (b : Builder) : 4 < b.config_cmd.length := by
  unfold Builder.config_cmd Builder.get_cmake_cmd
  rw [if_pos (get_build_flags_ne_empty b)]
  simp [cmakeBase, List.length_append]

/-- C5: with `--build_wasm` and `--build_test` (and no other optional
flags), when the directories validate and every external command
succeeds, the external steps executed are exactly [configure,
build-main-artifact, build-tests] in that order, the configure command
carries the WASM flag in its compiler flags, the documentation build
does not run, and the run exits 0. -/
theorem c5_wasm_test_steps (fs0 fs1 fs2 fs3 : Fs)
    (cwd0 bd ocv ems : List String) (bdR ocvR emsR : RawPath)
    (ncpu : Nat) (outcome : Oracle)
    (h1 : check_dir fs0 cwd0 bdR true false = Except.ok (fs1, bd))
    (h2 : check_dir fs1 cwd0 ocvR false false = Except.ok (fs2, ocv))
    (h3 : check_dir fs2 cwd0 emsR false false = Except.ok (fs3, ems))
    (hout : ∀ c f, outcome c f = (CallResult.exited 0, f)) :
    (mainRun fs0 cwd0 (wasmTestOptions bdR ocvR emsR) ncpu outcome).trace
        = [Builder.config_cmd
            { options := wasmTestOptions bdR ocvR emsR, build_dir := bd
              opencv_dir := ocv, emscripten_dir := ems },
          make_cmd ncpu "opencv.js", make_cmd ncpu "opencv_js_test"] ∧
      (mainRun fs0 cwd0 (wasmTestOptions bdR ocvR emsR) ncpu outcome).exit
        = Except.ok 0 ∧
      Builder.get_build_flags
          { options := wasmTestOptions bdR ocvR emsR, build_dir := bd
            opencv_dir := ocv, emscripten_dir := ems }
        = "-s USE_PTHREADS=0 -s WASM=1 " ∧
      ("-DCMAKE_C_FLAGS=\x27" ++ "-s USE_PTHREADS=0 -s WASM=1 " ++ "\x27")
        ∈ Builder.config_cmd
            { options := wasmTestOptions bdR ocvR emsR, build_dir := bd
              opencv_dir := ocv, emscripten_dir := ems } ∧
      make_cmd ncpu "doxygen"
        ∉ (mainRun fs0 cwd0 (wasmTestOptions bdR ocvR emsR)
            ncpu outcome).trace := by
  have hred : mainRun fs0 cwd0 (wasmTestOptions bdR ocvR emsR) ncpu outcome
      = finishPhase (wasmTestOptions bdR ocvR emsR)
          { options := wasmTestOptions bdR ocvR emsR, build_dir := bd
            opencv_dir := ocv, emscripten_dir := ems }
          fs3
          [Builder.config_cmd
            { options := wasmTestOptions bdR ocvR emsR, build_dir := bd
              opencv_dir := ocv, emscripten_dir := ems },
           make_cmd ncpu "opencv.js", make_cmd ncpu "opencv_js_test"] := by
    unfold mainRun
    simp only [wasmTestOptions, h1, h2, h3]
    unfold configPhase
    simp only [Bool.false_eq_true, if_false]
    unfold stepAndThen
    simp only [hout, execute_zero]
    unfold postConfigPhase
    simp only [Bool.false_eq_true, if_false]
    unfold buildJsPhase stepAndThen
    simp only [hout, execute_zero]
    unfold testPhase
    simp only [if_true]
    unfold stepAndThen
    simp only [hout, execute_zero]
    unfold docPhase
    simp only [Bool.false_eq_true, if_false]
    simp only [List.nil_append, List.cons_append, List.append_nil]
  have hflags : Builder.get_build_flags
      { options := wasmTestOptions bdR ocvR emsR, build_dir := bd
        opencv_dir := ocv, emscripten_dir := ems }
      = "-s USE_PTHREADS=0 -s WASM=1 " := rfl
  refine ⟨?_, ?_, hflags, ?_, ?_⟩
  · rw [hred, finishPhase_trace]
  · rw [hred]
    exact finishPhase_exit_ok _ _ _ _ rfl
  · have h := cflags_mem
      { options := wasmTestOptions bdR ocvR emsR, build_dir := bd
        opencv_dir := ocv, emscripten_dir := ems }
    rw [hflags] at h
    exact List.mem_append_left _ h
  · intro hm
    rw [hred, finishPhase_trace] at hm
    simp only [List.mem_cons, List.not_mem_nil, or_false] at hm
    rcases hm with h | h | h
    · have hlen := congrArg List.length h
      have h4 : (make_cmd ncpu "doxygen").length = 4 := rfl
      have hgt := config_cmd_length_gt
        { options := wasmTestOptions bdR ocvR emsR, build_dir := bd
          opencv_dir := ocv, emscripten_dir := ems }
      omega
    · have hx : ("doxygen" : String) = "opencv.js" := by
        have := congrArg (fun l => l.getLastD "") h
        simpa [make_cmd] using this
      exact absurd hx (by decide)
    · have hx : ("doxygen" : String) = "opencv_js_test" := by
        have := congrArg (fun l => l.getLastD "") h
        simpa [make_cmd] using this
      exact absurd hx (by decide)

/-- C5 witness: concrete `--build_wasm --build_test` run over existing
directories `/b`, `/s`, `/e` with the always-succeeding oracle. -/
theorem c5_witness :
    (mainRun fsThreeDirs []
        (wasmTestOptions (parsePath "b") (parsePath "s") (parsePath "e"))
        4 oracleOk).trace
        = [Builder.config_cmd
            { options := wasmTestOptions (parsePath "b") (parsePath "s")
                (parsePath "e")
              build_dir := ["b"], opencv_dir := ["s"]
              emscripten_dir := ["e"] },
          make_cmd 4 "opencv.js", make_cmd 4 "opencv_js_test"] ∧
      (mainRun fsThreeDirs []
        (wasmTestOptions (parsePath "b") (parsePath "s") (parsePath "e"))
        4 oracleOk).exit = Except.ok 0 := by
  have h := c5_wasm_test_steps fsThreeDirs fsThreeDirs fsThreeDirs
    fsThreeDirs [] ["b"] ["s"] ["e"]
    (parsePath "b") (parsePath "s") (parsePath "e") 4 oracleOk
    rfl rfl rfl (fun _ _ => rfl)
  exact ⟨h.1, h.2.1⟩

end WasmTestRun

section DocReportCrash

/-- Options record for a run with `--build_doc` set (and no other
optional flags). -/
def optsDoc : Options :=
  { build_dir := parsePath "b"
    opencv_dir := parsePath "s"
    emscripten_dir := some (parsePath "e")
    build_wasm := false
    disable_wasm := false
    build_test := false
    build_doc := true
    clean_build_dir := false
    skip_config := false
    config_only := false
    enable_exception := false }

/-- C2 failing filesystem: the source and toolchain directories exist,
the build directory is created by the run, and no build artifact —
in particular no `tutorial_js_root.html` anywhere — ever appears
(the oracle leaves the filesystem unchanged). -/
def fsC2 : Fs := [(["s"], Entry.dir), (["e"], Entry.dir)]

/-- C2 exhibits a code bug: on a `--build_doc` run whose documentation
root page is absent, `find_file` returns `None`, `check_file(None)`
calls `os.path.abspath(None)`, and the run dies with a `TypeError`
instead of reporting the absence silently and exiting 0.  (For the main
artifact the absence is indeed silent: nothing is printed before the
crash.)  The build itself succeeded: all three external steps ran. -/
theorem c2_doc_report_crash :
    (mainRun fsC2 [] optsDoc 1 oracleOk).exit
        = Except.error (PyErr.typeError
            "expected str, bytes or os.PathLike object, not NoneType") ∧
      (mainRun fsC2 [] optsDoc 1 oracleOk).printed = [] ∧
      (mainRun fsC2 [] optsDoc 1 oracleOk).trace.length = 3 ∧
      fsExists (mainRun fsC2 [] optsDoc 1 oracleOk).fs
          ["b", "bin", "opencv.js"] = false ∧
      find_file (mainRun fsC2 [] optsDoc 1 oracleOk).fs
          "tutorial_js_root.html" ["b", "doc", "doxygen", "html"] = none := by
  refine ⟨rfl, rfl, rfl, rfl, rfl⟩

end DocReportCrash

/-- C10 witness: concrete instantiation on the `--build_test` builder. -/
theorem c10_witness :
    (∃ r, builderBuildTest.get_build_flags = "-s USE_PTHREADS=0 " ++ r) ∧
      builderBuildTest.get_build_flags ≠ "" ∧
      ("-DCMAKE_C_FLAGS=\x27" ++ builderBuildTest.get_build_flags ++ "\x27")
        ∈ builderBuildTest.get_cmake_cmd ∧
      ("-DCMAKE_CXX_FLAGS=\x27" ++ builderBuildTest.get_build_flags ++ "\x27")
        ∈ builderBuildTest.get_cmake_cmd :=
  c10_build_flags_always builderBuildTest
